import Mathlib

/-!
A verification development for the `tg-sender` bulk-messaging service.

The definitions below are a shallow embedding of `src/app.service.ts`
(`AppService.sendTestMessage`) and of the messaging service
(`MessagingService`: `analyzeError`, `getPostLink`, `sendLogMessage`,
`sendBulkMessagesWithInterval`).  JavaScript strings are modelled as Lean
`String`, JS numbers holding integer counters as `Nat`/`Int`, `NaN` as
`Option.none`, fallible calls as `Except`, and the observable effects of a
round of the dispatch loop (audit reports and timed suspensions) as an
explicit trace.
-/

namespace TgSender

/-! ## String helpers (JS `String.prototype.includes`, `replace`, digits) -/

/-- `startsWithL p s` is true when the list `p` is a leading segment of `s`. -/
def startsWithL : List Char → List Char → Bool
  | [], _ => true
  | _ :: _, [] => false
  | p :: ps, c :: cs => p == c && startsWithL ps cs

/-- `containsSub p s`: `p` occurs contiguously inside `s`
(the semantics of JS `s.includes(p)`).  -/
def containsSub (p : List Char) : List Char → Bool
  | [] => p.isEmpty
  | c :: cs => startsWithL p (c :: cs) || containsSub p cs

/-- JS `s.includes(p)` on Lean strings. -/
def includesStr (s p : String) : Bool :=
  containsSub p.toList s.toList

/-- Remove the first contiguous occurrence of `p`, if any
(the semantics of JS `s.replace(p, interpreted-as-plain-text)` with an empty
replacement). -/
def removeFirstOccL (p : List Char) : List Char → List Char
  | [] => []
  | c :: cs =>
    if startsWithL p (c :: cs) then (c :: cs).drop p.length
    else c :: removeFirstOccL p cs

/-- JS `s.replace(p, Empty-string)`: delete the first occurrence of `p` in `s`. -/
def replaceFirstOcc (s p : String) : String :=
  (removeFirstOccL p.toList s.toList).asString

/-- Value of a list of decimal digit characters (semantics of JS
`parseInt` applied to a digit string). -/
def digitsToNat (ds : List Char) : Nat :=
  ds.foldl (fun acc c => acc * 10 + (c.toNat - 48)) 0

/-- The first maximal run of decimal digits in `s`, as a number — the
semantics of the JS regular-expression search for one-or-more digits used by
`analyzeError` (`errorMessage.match` with a digit-run pattern). -/
def firstNumber : List Char → Option Nat
  | [] => none
  | c :: cs =>
    if c.isDigit then some (digitsToNat ((c :: cs).takeWhile Char.isDigit))
    else firstNumber cs

/-- JS `parseInt(s)` restricted to decimal inputs: skip leading whitespace,
read an optional sign and then a run of decimal digits; `none` models `NaN`
when no digit is found.  (The automatic radix-16 detection of `parseInt` for
inputs opening with a zero-x marker is not modelled; no theorem below
evaluates such an input.) -/
def jsParseInt (s : String) : Option Int :=
  let cs := s.toList.dropWhile Char.isWhitespace
  let signed : Int × List Char :=
    match cs with
    | '-' :: rest => (-1, rest)
    | '+' :: rest => (1, rest)
    | _ => (1, cs)
  let ds := signed.2.takeWhile Char.isDigit
  if ds.isEmpty then none
  else some (signed.1 * Int.ofNat (digitsToNat ds))

/-- JS `x || d` for an optional environment string: the default is taken when
the variable is absent or empty (the two falsy cases of an env string). -/
def orDefault (v : Option String) (d : String) : String :=
  match v with
  | some s => if s == "" then d else s
  | none => d

/-! ## Error classifier — `MessagingService.analyzeError` -/

/-- The record returned by `analyzeError`:
`{ description, action, waitTime }`. -/
structure ErrorInfo where
  description : String
  action : String
  waitTime : Nat
deriving Repr, DecidableEq

/-- Embedding of `MessagingService.analyzeError`.  The input is the error's
textual description (`error.message || error.toString()` in the source); the
chain of `includes` checks is translated branch by branch, in source order. -/
def analyzeError (errorMessage : String) : ErrorInfo :=
  if includesStr errorMessage "FLOOD_WAIT" || includesStr errorMessage "Too Many Requests" then
    let waitTime := (firstNumber errorMessage.toList).getD 300
    { description := "Flood control activated, need to wait " ++ toString waitTime ++ " seconds"
      action := "Will pause bulk sending until flood control expires"
      waitTime := waitTime }
  else if includesStr errorMessage "CHAT_WRITE_FORBIDDEN" || includesStr errorMessage "write access" then
    { description := "No permission to send messages to this chat"
      action := "Skip this chat and continue with others"
      waitTime := 0 }
  else if includesStr errorMessage "USER_BANNED_IN_CHANNEL" || includesStr errorMessage "banned" then
    { description := "User is banned in this channel"
      action := "Skip this chat permanently"
      waitTime := 0 }
  else if includesStr errorMessage "CHANNEL_PRIVATE" || includesStr errorMessage "private" then
    { description := "Channel became private or was deleted"
      action := "Skip this chat permanently"
      waitTime := 0 }
  else if includesStr errorMessage "CHAT_ADMIN_REQUIRED" || includesStr errorMessage "admin" then
    { description := "Admin rights required to send messages"
      action := "Skip this chat and continue with others"
      waitTime := 0 }
  else if includesStr errorMessage "PEER_ID_INVALID" || includesStr errorMessage "Could not find" then
    { description := "Chat not found or not accessible"
      action := "Skip this chat permanently"
      waitTime := 0 }
  else
    { description := "Unknown error: " ++ errorMessage
      action := "Skip this chat and continue with others"
      waitTime := 0 }

/-- The structured outcome taxonomy named by the specification. -/
inductive Severity where
  | RateLimited (waitSeconds : Nat)
  | PermanentSkip
  | TransientSkip
  | Unknown
deriving Repr, DecidableEq

/-- Rate-limit marker of the source: a flood-control code or the textual
too-many-requests phrase of the transport. -/
def isRateLimitMarker (msg : String) : Bool :=
  includesStr msg "FLOOD_WAIT" || includesStr msg "Too Many Requests"

/-- Write-forbidden marker. -/
def isWriteForbiddenMarker (msg : String) : Bool :=
  includesStr msg "CHAT_WRITE_FORBIDDEN" || includesStr msg "write access"

/-- Banned marker. -/
def isBannedMarker (msg : String) : Bool :=
  includesStr msg "USER_BANNED_IN_CHANNEL" || includesStr msg "banned"

/-- Channel private/deleted marker. -/
def isChannelPrivateMarker (msg : String) : Bool :=
  includesStr msg "CHANNEL_PRIVATE" || includesStr msg "private"

/-- Admin-required marker. -/
def isAdminRequiredMarker (msg : String) : Bool :=
  includesStr msg "CHAT_ADMIN_REQUIRED" || includesStr msg "admin"

/-- Peer-not-found/invalid marker. -/
def isPeerInvalidMarker (msg : String) : Bool :=
  includesStr msg "PEER_ID_INVALID" || includesStr msg "Could not find"

/-- Wait seconds extracted from a rate-limited error message: the first
embedded integer, with a default of 300 when none is embedded. -/
def extractWaitSeconds (msg : String) : Nat :=
  (firstNumber msg.toList).getD 300

/-- The classification described by the specification: first-match-wins
precedence over case-sensitive substrings of the error's textual
description, in the order rate-limit, write-forbidden, banned,
channel-private, admin-required, peer-invalid, otherwise Unknown. -/
def classifySpec (msg : String) : Severity :=
  if isRateLimitMarker msg then Severity.RateLimited (extractWaitSeconds msg)
  else if isWriteForbiddenMarker msg then Severity.TransientSkip
  else if isBannedMarker msg then Severity.PermanentSkip
  else if isChannelPrivateMarker msg then Severity.PermanentSkip
  else if isAdminRequiredMarker msg then Severity.TransientSkip
  else if isPeerInvalidMarker msg then Severity.PermanentSkip
  else Severity.Unknown

/-- How the observable fields of an `analyzeError` result encode the
specification's taxonomy: the flood branch is the only one with the pause
action, the permanent branches are the only ones with the skip-permanently
action, the unknown branch is the only one whose description opens with the
unknown-error marker, and everything else is a transient skip. -/
def severityOfInfo (info : ErrorInfo) : Severity :=
  if info.action == "Will pause bulk sending until flood control expires" then
    Severity.RateLimited info.waitTime
  else if info.action == "Skip this chat permanently" then Severity.PermanentSkip
  else if startsWithL "Unknown error:".toList info.description.toList then Severity.Unknown
  else Severity.TransientSkip

/-! ## Permalink builder — `MessagingService.getPostLink` -/

/-- The loosely-typed transport entity, restricted to the fields
`getPostLink` consults: optional public handle, class name and numeric id. -/
structure Entity where
  username : Option String
  className : String
  id : Int
deriving Repr, DecidableEq

/-- Truthiness of the optional `username` field of a JS entity: present and
non-empty. -/
def truthyStr : Option String → Bool
  | none => false
  | some s => s != ""

/-- Embedding of `MessagingService.getPostLink`. -/
def getPostLink (entity : Entity) (messageId : Nat) : String :=
  if truthyStr entity.username then
    "https://t.me/" ++ entity.username.getD "" ++ "/" ++ toString messageId
  else if entity.className == "Channel" then
    "https://t.me/c/" ++ replaceFirstOcc (toString entity.id) "-100" ++ "/" ++ toString messageId
  else
    "Private group (ID: " ++ toString entity.id ++ ", Message: " ++ toString messageId ++ ")"

/-- The channel-id transformation as the specification words it: the id
rendered as text with its leading `-100` stripped when present. -/
def stripDash100 (s : String) : String :=
  if startsWithL "-100".toList s.toList then (s.toList.drop 4).asString else s

/-! ## Audit reporter — `MessagingService.sendLogMessage` -/

/-- What `sendLogMessage` did, as observed by its own logging: either the
audit message was delivered, or a failure was caught and written to the
local log. -/
inductive LogAttempt where
  | delivered
  | failureLogged (err : String)
deriving Repr, DecidableEq

/-- The body of the `try` block of `sendLogMessage`: resolve the audit
destination, then transmit the message through it.  Either step may fail
with a transport error. -/
def sendLogMessageBody (getEntity : String → Except String Entity)
    (send : Entity → String → Except String Unit)
    (logChatId message : String) : Except String LogAttempt :=
  match getEntity logChatId with
  | Except.error e => Except.error e
  | Except.ok logEntity =>
    match send logEntity message with
    | Except.error e => Except.error e
    | Except.ok _ => Except.ok LogAttempt.delivered

/-- Embedding of `MessagingService.sendLogMessage`: the `try`/`catch` around
entity resolution and transmission.  The `catch` arm records the failure in
the local log and returns normally. -/
def sendLogMessage (getEntity : String → Except String Entity)
    (send : Entity → String → Except String Unit)
    (logChatId message : String) : Except String LogAttempt :=
  match sendLogMessageBody getEntity send logChatId message with
  | Except.error e => Except.ok (LogAttempt.failureLogged e)
  | Except.ok v => Except.ok v

/-! ## Startup configuration — `AppService.sendTestMessage` -/

/-- The environment variables `sendTestMessage` reads; `none` models an
unset variable. -/
structure EnvConfig where
  bulkMessageText : Option String
  logChatId : Option String
  bulkIntervalSeconds : Option String
  targetChats : Option String
deriving Repr

/-- JS `replace` of every escaped-newline sequence by a newline character
(the global regular-expression replace applied to the message text). -/
def unescapeNewlines (s : String) : String :=
  go s.toList |>.asString
where
  go : List Char → List Char
  | [] => []
  | '\\' :: 'n' :: rest => '\n' :: go rest
  | c :: rest => c :: go rest

/-- JS `split(',')` on the character list: the pieces between commas, in
order; an input with no comma yields one piece, so the empty input yields
one empty piece. -/
def splitCommaGo : List Char → List Char → List (List Char)
  | [], acc => [acc.reverse]
  | c :: cs, acc =>
    if c == ',' then acc.reverse :: splitCommaGo cs []
    else splitCommaGo cs (c :: acc)

/-- JS `String.prototype.trim`: drop leading and trailing whitespace. -/
def trimStr (s : String) : String :=
  (((s.toList.dropWhile Char.isWhitespace).reverse.dropWhile Char.isWhitespace).reverse).asString

/-- The destination list derived from the `TARGET_CHATS` variable: split on
commas, trim each token, drop the empty ones. -/
def parseTargetChats (env : Option String) : List String :=
  (((splitCommaGo (orDefault env "").toList []).map (fun p => trimStr p.asString)).filter
    (fun chat => chat.length > 0))

/-- The inter-message interval derived from `BULK_INTERVAL_SECONDS`:
`parseInt(env-value || fallback-ninety)`; `none` models `NaN`. -/
def intervalSecondsOf (env : Option String) : Option Int :=
  jsParseInt (orDefault env "90")

/-- The observable outcome of `sendTestMessage` up to the point where the
dispatch loop would be entered: the error conditions surfaced through the
local error log, the number of audit-channel messages this function itself
sent, and whether `sendBulkMessagesWithInterval` was reached. -/
structure StartupResult where
  errors : List String
  auditMessages : Nat
  loopStarted : Bool
deriving Repr, DecidableEq

/-- Embedding of the configuration-validation part of
`AppService.sendTestMessage`: derive the message text and the destination
list, surface an error and return without starting the loop when the
destination list is empty or the message text is blank, otherwise enter the
dispatch loop. -/
def sendTestMessage (env : EnvConfig) : StartupResult :=
  let messageText := unescapeNewlines (orDefault env.bulkMessageText "Default test message")
  let targetChats := parseTargetChats env.targetChats
  if targetChats.length == 0 then
    { errors := ["No target chats found in TARGET_CHATS env variable"]
      auditMessages := 0
      loopStarted := false }
  else if (trimStr messageText).length == 0 then
    { errors := ["No message text found in BULK_MESSAGE_TEXT env variable"]
      auditMessages := 0
      loopStarted := false }
  else
    { errors := []
      auditMessages := 0
      loopStarted := true }

/-! ## Round scheduler and dispatch loop —
`MessagingService.sendBulkMessagesWithInterval`

The transport outcome of one delivery attempt is the value
`sendMessageWithLogging` returns to the round loop: `true`, the string
flood-wait marker, or `false`. -/

/-- Return value of `sendMessageWithLogging` as consumed by the round loop. -/
inductive SendResult where
  | sent
  | floodWait
  | failed
deriving Repr, DecidableEq

/-- The round-level audit reports of the dispatch loop, with the numeric
fields their templates interpolate. -/
inductive AuditEvent where
  | roundStarted (roundNumber chats totalSuccess totalFail totalFlood : Nat)
  | roundPaused (roundNumber processed chats roundSent roundFailed : Nat)
  | roundCompleted (roundNumber roundSent roundFailed totalSuccess totalFail totalFlood : Nat)
deriving Repr, DecidableEq

/-- One observable step of a round: an audit report sent to the log channel,
or a timed suspension of the stated number of seconds. -/
inductive TraceItem where
  | report (e : AuditEvent)
  | wait (seconds : Nat)
deriving Repr, DecidableEq

/-- The per-round counters of `sendBulkMessagesWithInterval`, together with
the instrumented observables of the round: which destination indices were
attempted, and the trace of reports and suspensions the round emitted. -/
structure RoundOut where
  succ : Nat
  fail : Nat
  flood : Nat
  stopped : Bool
  attempted : List Nat
  trace : List TraceItem
deriving Repr, DecidableEq

/-- The for-loop of one round (`for i of the chat indices` in
`sendBulkMessagesWithInterval`), rendered as structural recursion over the
remaining destinations.  `i` is the current index, `sAcc`/`fAcc` the round
success/failure counters accumulated so far (the pause report interpolates
them).  A flood-wait outcome increments the flood counter, marks the round
stopped, emits the pause report and breaks out; other outcomes update the
counters and, except at the last index, suspend for the inter-message
interval. -/
def roundGo (results : Nat → SendResult) (roundNumber chatCount interval : Nat) :
    List String → Nat → Nat → Nat → RoundOut
  | [], _, _, _ =>
    { succ := 0, fail := 0, flood := 0, stopped := false, attempted := [], trace := [] }
  | _chat :: rest, i, sAcc, fAcc =>
    match results i with
    | SendResult.sent =>
      let tail := roundGo results roundNumber chatCount interval rest (i + 1) (sAcc + 1) fAcc
      { tail with
        succ := tail.succ + 1
        attempted := i :: tail.attempted
        trace := (if i < chatCount - 1 then [TraceItem.wait interval] else []) ++ tail.trace }
    | SendResult.floodWait =>
      { succ := 0, fail := 0, flood := 1, stopped := true
        attempted := [i]
        trace := [TraceItem.report (AuditEvent.roundPaused roundNumber (i + 1) chatCount sAcc fAcc)] }
    | SendResult.failed =>
      let tail := roundGo results roundNumber chatCount interval rest (i + 1) sAcc (fAcc + 1)
      { tail with
        fail := tail.fail + 1
        attempted := i :: tail.attempted
        trace := (if i < chatCount - 1 then [TraceItem.wait interval] else []) ++ tail.trace }

/-- The cumulative state of the dispatch loop. -/
structure LoopState where
  totalSuccessCount : Nat
  totalFailCount : Nat
  totalFloodWaitCount : Nat
  roundNumber : Nat
deriving Repr, DecidableEq

/-- What one round of the dispatch loop produced: the round counters, the
state carried to the next round, the trace of reports and suspensions, and
whether the extra flood-protection cooldown fired. -/
structure RoundResult where
  out : RoundOut
  state : LoopState
  trace : List TraceItem
  cooldownApplied : Bool
deriving Repr, DecidableEq

/-- One iteration of the `while (true)` body of
`sendBulkMessagesWithInterval`: emit the round-started report, run the
per-destination loop from index 0 with freshly reset round counters, fold
the round counters into the cumulative totals, emit the round-completed
report and the inter-round suspension only when the round was not stopped,
increment the round number, and apply the extra 300-second cooldown exactly
when the round recorded a flood wait yet was not stopped.  `results i` is the
transport outcome of this round's attempt at destination index `i`. -/
def sendBulkRound (results : Nat → SendResult) (chatIds : List String)
    (interval : Nat) (st : LoopState) : RoundResult :=
  let startItem := TraceItem.report (AuditEvent.roundStarted st.roundNumber chatIds.length
    st.totalSuccessCount st.totalFailCount st.totalFloodWaitCount)
  let out := roundGo results st.roundNumber chatIds.length interval chatIds 0 0 0
  let newSuccess := st.totalSuccessCount + out.succ
  let newFail := st.totalFailCount + out.fail
  let newFlood := st.totalFloodWaitCount + out.flood
  let completionItems :=
    if !out.stopped then
      [TraceItem.report (AuditEvent.roundCompleted st.roundNumber out.succ out.fail
          newSuccess newFail newFlood),
       TraceItem.wait interval]
    else []
  let cooldown := out.flood != 0 && !out.stopped
  let cooldownItems := if cooldown then [TraceItem.wait 300] else []
  { out := out
    state :=
      { totalSuccessCount := newSuccess
        totalFailCount := newFail
        totalFloodWaitCount := newFlood
        roundNumber := st.roundNumber + 1 }
    trace := startItem :: (out.trace ++ completionItems ++ cooldownItems)
    cooldownApplied := cooldown }

/-- Finitely many iterations of the dispatch loop, one per-round transport
oracle per round (the loop itself never terminates; its cumulative state
after any number of rounds is this fold). -/
def runRounds (chatIds : List String) (interval : Nat) :
    List (Nat → SendResult) → LoopState → LoopState
  | [], st => st
  | r :: rest, st =>
    runRounds chatIds interval rest (sendBulkRound r chatIds interval st).state

/-- Is a trace item the round-paused report? -/
def isPauseItem : TraceItem → Bool
  | TraceItem.report (AuditEvent.roundPaused _ _ _ _ _) => true
  | _ => false

/-- Is a trace item the round-completed report? -/
def isCompletedItem : TraceItem → Bool
  | TraceItem.report (AuditEvent.roundCompleted _ _ _ _ _ _) => true
  | _ => false

/-- Is a trace item any audit report (as opposed to a timed suspension)? -/
def isReportItem : TraceItem → Bool
  | TraceItem.report _ => true
  | TraceItem.wait _ => false

/-- Number of round-paused reports in a trace. -/
def countPause (t : List TraceItem) : Nat :=
  (t.filter isPauseItem).length

/-- Number of round-completed reports in a trace. -/
def countCompleted (t : List TraceItem) : Nat :=
  (t.filter isCompletedItem).length

/-! ## Theorems -/

/-- C2: `analyzeError` classifies every raw error by first-match-wins
precedence over case-sensitive substrings of the error's textual
description, in the order rate-limit marker → RateLimited (wait seconds =
first embedded integer, default 300), write-forbidden → TransientSkip,
banned → PermanentSkip, channel private/deleted → PermanentSkip, admin
required → TransientSkip, peer not found/invalid → PermanentSkip, otherwise
Unknown; the classification is a total function on strings, and the wait
defaults to 300 when no integer is embedded. -/
theorem analyzeError_matches_spec (msg : String) :
    severityOfInfo (analyzeError msg) = classifySpec msg
    ∧ (isRateLimitMarker msg = true → firstNumber msg.toList = none →
        severityOfInfo (analyzeError msg) = Severity.RateLimited 300) := by
  have hmain : severityOfInfo (analyzeError msg) = classifySpec msg := by
    unfold analyzeError classifySpec isRateLimitMarker isWriteForbiddenMarker
      isBannedMarker isChannelPrivateMarker isAdminRequiredMarker isPeerInvalidMarker
      extractWaitSeconds
    split_ifs <;> rfl
  refine ⟨hmain, ?_⟩
  intro h1 h2
  rw [hmain]
  unfold classifySpec extractWaitSeconds
  simp only [String.toList] at h2
  simp [h1, h2]

/-- Witness for the default-wait clause of C2: the bare flood-control code
has no embedded integer and classifies as rate-limited with a 300-second
wait. -/
theorem analyzeError_matches_spec_witness :
    severityOfInfo (analyzeError "FLOOD_WAIT") = Severity.RateLimited 300 :=
  (analyzeError_matches_spec "FLOOD_WAIT").2 (by decide) (by decide)

/-- C7: `sendLogMessage` never raises past its boundary: whatever entity
resolution and transmission do, the result is a normal return, and every
failure of the body is caught and recorded in the local log. -/
theorem sendLogMessage_never_raises (getEntity : String → Except String Entity)
    (send : Entity → String → Except String Unit) (logChatId message : String) :
    (∃ v, sendLogMessage getEntity send logChatId message = Except.ok v)
    ∧ (∀ e, sendLogMessageBody getEntity send logChatId message = Except.error e →
        sendLogMessage getEntity send logChatId message =
          Except.ok (LogAttempt.failureLogged e)) := by
  unfold sendLogMessage
  cases h : sendLogMessageBody getEntity send logChatId message with
  | error e => exact ⟨⟨LogAttempt.failureLogged e, rfl⟩, fun e' he' => by
      rw [Except.error.injEq] at he'
      rw [he']⟩
  | ok v => exact ⟨⟨v, rfl⟩, fun e' he' => by cases he'⟩

/-- Witness for C7 at a failing resolver: the resolution error is caught and
the caller sees a normal return carrying the logged failure. -/
theorem sendLogMessage_never_raises_witness :
    sendLogMessage (fun _ => Except.error "resolve failed")
        (fun _ _ => Except.ok ()) "log" "audit text" =
      Except.ok (LogAttempt.failureLogged "resolve failed") :=
  (sendLogMessage_never_raises (fun _ => Except.error "resolve failed")
    (fun _ _ => Except.ok ()) "log" "audit text").2 "resolve failed" rfl

/-- C8: when the destination list derived from configuration is empty, the
dispatch loop never starts, exactly one error condition is surfaced, and no
audit messages are sent. -/
theorem emptyTargets_never_starts_loop (env : EnvConfig)
    (h : parseTargetChats env.targetChats = []) :
    (sendTestMessage env).loopStarted = false
    ∧ (sendTestMessage env).errors.length = 1
    ∧ (sendTestMessage env).auditMessages = 0 := by
  unfold sendTestMessage
  simp [h]

/-- Witness for C8: a `TARGET_CHATS` value holding only separators and
blanks derives an empty destination list, and startup surfaces one error,
sends no audit message, and never enters the loop. -/
theorem emptyTargets_never_starts_loop_witness :
    (sendTestMessage
        { bulkMessageText := some "hello", logChatId := some "-4872735777"
          bulkIntervalSeconds := some "90", targetChats := some " , " }).loopStarted = false
    ∧ (sendTestMessage
        { bulkMessageText := some "hello", logChatId := some "-4872735777"
          bulkIntervalSeconds := some "90", targetChats := some " , " }).errors.length = 1
    ∧ (sendTestMessage
        { bulkMessageText := some "hello", logChatId := some "-4872735777"
          bulkIntervalSeconds := some "90", targetChats := some " , " }).auditMessages = 0 :=
  emptyTargets_never_starts_loop
    { bulkMessageText := some "hello", logChatId := some "-4872735777"
      bulkIntervalSeconds := some "90", targetChats := some " , " } (by decide)

/-- C9 counterexample: with `BULK_INTERVAL_SECONDS` set to a non-numeric
string, the interval is `parseInt` of that string — `NaN` (modelled `none`)
— not the claimed default of 90. -/
theorem interval_not_defaulted_on_invalid :
    intervalSecondsOf (some "abc") = none ∧ intervalSecondsOf (some "abc") ≠ some 90 := by
  constructor
  · decide
  · decide

/-- C9 amended: the interval is `parseInt` of the configured value whenever
the variable is set and non-empty (so a value with a leading integer is used
as configured, and a non-numeric value yields `NaN`, not 90); the default of
90 applies only when the variable is unset or empty. -/
theorem intervalSeconds_amended (env : Option String) :
    (env = none ∨ env = some "" → intervalSecondsOf env = some 90)
    ∧ (∀ s, env = some s → s ≠ "" → intervalSecondsOf env = jsParseInt s) := by
  constructor
  · intro h
    rcases h with h | h <;> subst h <;> decide
  · intro s hs hne
    subst hs
    unfold intervalSecondsOf orDefault
    simp [hne]

/-- Witness for the amended C9: an unset variable defaults to 90, and a set
non-numeric variable is passed to `parseInt` unchanged. -/
theorem intervalSeconds_amended_witness :
    intervalSecondsOf none = some 90
    ∧ intervalSecondsOf (some "12abc") = jsParseInt "12abc" :=
  ⟨(intervalSeconds_amended none).1 (Or.inl rfl),
   (intervalSeconds_amended (some "12abc")).2 "12abc" rfl (by decide)⟩

/-! ### Decimal renderings contain no interior dash -/

/-- Every character emitted by `Nat.digitChar` differs from the dash. -/
theorem digitChar_ne_dash (n : Nat) : Nat.digitChar n ≠ '-' := by
  rcases Nat.lt_or_ge n 16 with h | h
  · interval_cases n <;> decide
  · unfold Nat.digitChar
    repeat rw [if_neg (by omega)]
    decide

/-- `Nat.toDigitsCore` at base 10 adds only digit characters to its
accumulator. -/
theorem toDigitsCore_ne_dash : ∀ (fuel n : Nat) (acc : List Char),
    (∀ c ∈ acc, c ≠ '-') → ∀ c ∈ Nat.toDigitsCore 10 fuel n acc, c ≠ '-' := by
  intro fuel
  induction fuel with
  | zero =>
    intro n acc h c hc
    rw [Nat.toDigitsCore] at hc
    exact h c hc
  | succ fuel ih =>
    intro n acc h c hc
    rw [Nat.toDigitsCore] at hc
    by_cases h10 : n / 10 = 0
    · rw [if_pos h10] at hc
      rcases List.mem_cons.mp hc with h1 | h2
      · exact h1 ▸ digitChar_ne_dash (n % 10)
      · exact h c h2
    · rw [if_neg h10] at hc
      refine ih (n / 10) (Nat.digitChar (n % 10) :: acc) ?_ c hc
      intro c' hc'
      rcases List.mem_cons.mp hc' with h1 | h2
      · exact h1 ▸ digitChar_ne_dash (n % 10)
      · exact h c' h2

/-- A natural number's decimal rendering contains no dash. -/
theorem natRepr_ne_dash (n : Nat) : ∀ c ∈ (Nat.repr n).toList, c ≠ '-' := by
  intro c hc
  exact toDigitsCore_ne_dash (n + 1) n [] (by intro c' hc'; cases hc') c hc

/-- An integer's decimal rendering has a dash at most in front: every
character after the first differs from the dash. -/
theorem intToString_tail_ne_dash (i : Int) :
    ∀ c ∈ (toString i).toList.drop 1, c ≠ '-' := by
  intro c hc
  match i with
  | Int.ofNat m =>
    exact natRepr_ne_dash m c (List.mem_of_mem_drop hc)
  | Int.negSucc m =>
    have hl : (toString (Int.negSucc m)).toList = '-' :: (Nat.repr (m + 1)).toList := by
      show ("-" ++ Nat.repr (m + 1)).toList = _
      simp [String.toList, String.data_append]
    rw [hl] at hc
    simp only [List.drop_succ_cons, List.drop_zero] at hc
    exact natRepr_ne_dash (m + 1) c hc

/-! ### Matching a leading segment, and occurrence removal -/

/-- When `p` is a leading segment of `s`, every character of `p` occurs in
`s`. -/
theorem startsWithL_mem : ∀ p s : List Char, startsWithL p s = true → ∀ c ∈ p, c ∈ s := by
  intro p
  induction p with
  | nil => intro s _ c hc; cases hc
  | cons q qs ih =>
    intro s h c hc
    cases s with
    | nil => simp [startsWithL] at h
    | cons b bs =>
      simp only [startsWithL, Bool.and_eq_true, beq_iff_eq] at h
      rcases List.mem_cons.mp hc with h1 | h2
      · subst h1; exact List.mem_cons.mpr (Or.inl h.1)
      · exact List.mem_cons.mpr (Or.inr (ih bs h.2 c h2))

/-- Removing the first occurrence of a dash-holding pattern from a dash-free
list changes nothing. -/
theorem removeFirstOccL_no_dash (p : List Char) (hp : '-' ∈ p) :
    ∀ s : List Char, (∀ c ∈ s, c ≠ '-') → removeFirstOccL p s = s := by
  intro s
  induction s with
  | nil => intro _; rw [removeFirstOccL]
  | cons b bs ih =>
    intro h
    rw [removeFirstOccL]
    have hsw : ¬ (startsWithL p (b :: bs) = true) := fun hT =>
      (h '-' (startsWithL_mem p (b :: bs) hT '-' hp)) rfl
    rw [if_neg hsw, ih (fun c hc => h c (List.mem_cons.mpr (Or.inr hc)))]

/-- On a list whose dash occurs at most in front, removing the first
occurrence of a dash-holding pattern is exactly stripping it as a leading
segment. -/
theorem removeFirstOccL_strip (p : List Char) (hp : '-' ∈ p) :
    ∀ s : List Char, (∀ c ∈ s.drop 1, c ≠ '-') →
      removeFirstOccL p s = if startsWithL p s then s.drop p.length else s := by
  intro s h
  cases s with
  | nil =>
    rw [removeFirstOccL]
    cases p with
    | nil => cases hp
    | cons q qs => simp [startsWithL]
  | cons b bs =>
    by_cases hsw : startsWithL p (b :: bs) = true
    · rw [removeFirstOccL, if_pos hsw, if_pos hsw]
    · rw [removeFirstOccL, if_neg hsw, if_neg hsw,
        removeFirstOccL_no_dash p hp bs (by simpa using h)]

/-- On an integer's decimal rendering, the source's first-occurrence
replacement of `-100` coincides with the specification's stripping of a
leading `-100`. -/
theorem replaceFirstOcc_int_dash100 (i : Int) :
    replaceFirstOcc (toString i) "-100" = stripDash100 (toString i) := by
  unfold replaceFirstOcc stripDash100
  rw [removeFirstOccL_strip "-100".toList (by decide) (toString i).toList
    (intToString_tail_ne_dash i)]
  by_cases hsw : startsWithL "-100".toList (toString i).toList = true
  · rw [if_pos hsw, if_pos hsw]
    rfl
  · rw [if_neg hsw, if_neg hsw]
    rfl

/-! ### Substring occurrence in a build-up of appends -/

/-- Every list is a leading segment of itself followed by anything. -/
theorem startsWithL_self_append : ∀ p t : List Char, startsWithL p (p ++ t) = true := by
  intro p
  induction p with
  | nil => intro t; rfl
  | cons q qs ih =>
    intro t
    show startsWithL (q :: qs) (q :: (qs ++ t)) = true
    simp only [startsWithL, Bool.and_eq_true, beq_self_eq_true, true_and]
    exact ih t

/-- A list occurs in itself followed by anything. -/
theorem containsSub_here : ∀ p b : List Char, containsSub p (p ++ b) = true := by
  intro p b
  cases p with
  | nil =>
    cases b with
    | nil => rfl
    | cons c cs =>
      show containsSub [] (c :: cs) = true
      rw [containsSub]
      simp [startsWithL]
  | cons q qs =>
    have h := startsWithL_self_append (q :: qs) b
    rw [List.cons_append] at h
    show containsSub (q :: qs) (q :: (qs ++ b)) = true
    rw [containsSub, h, Bool.true_or]

/-- Occurrence is preserved by prepending. -/
theorem containsSub_append_left (p : List Char) : ∀ a s : List Char,
    containsSub p s = true → containsSub p (a ++ s) = true := by
  intro a
  induction a with
  | nil => intro s h; simpa using h
  | cons c cs ih =>
    intro s h
    rw [List.cons_append, containsSub, ih s h, Bool.or_true]

/-- C6: `getPostLink` returns `https://t.me/<handle>/<messageId>` for an
entity with a public handle; for a broadcast-channel entity with no handle,
an internal link whose channel component is the entity id with its `-100`
prefix stripped; and otherwise a textual descriptor containing the raw
entity id and the message id. -/
theorem getPostLink_spec (e : Entity) (m : Nat) :
    (∀ u, e.username = some u → u ≠ "" →
        getPostLink e m = "https://t.me/" ++ u ++ "/" ++ toString m)
    ∧ (truthyStr e.username = false → e.className = "Channel" →
        getPostLink e m = "https://t.me/c/" ++ stripDash100 (toString e.id) ++ "/" ++ toString m)
    ∧ (truthyStr e.username = false → e.className ≠ "Channel" →
        includesStr (getPostLink e m) (toString e.id) = true
        ∧ includesStr (getPostLink e m) (toString m) = true) := by
  refine ⟨?_, ?_, ?_⟩
  · intro u hu hne
    unfold getPostLink
    rw [hu]
    have ht : truthyStr (some u) = true := by
      simp only [truthyStr, bne_iff_ne, ne_eq]
      exact hne
    rw [if_pos ht]
    simp [Option.getD]
  · intro hf hc
    unfold getPostLink
    rw [if_neg (by simp [hf]), if_pos (by simp [hc]), replaceFirstOcc_int_dash100 e.id]
  · intro hf hc
    unfold getPostLink
    rw [if_neg (by simp [hf]), if_neg (by simp only [beq_iff_eq]; exact hc)]
    constructor
    · unfold includesStr
      simp only [String.toList, String.data_append, List.append_assoc]
      exact containsSub_append_left _ _ _ (containsSub_here _ _)
    · unfold includesStr
      simp only [String.toList, String.data_append, List.append_assoc]
      exact containsSub_append_left _ _ _
        (containsSub_append_left _ _ _
          (containsSub_append_left _ _ _ (containsSub_here _ _)))

/-- Witness for C6 at the specification's three examples: handle `foo` with
message 42, the handle-less broadcast channel `-1001234567890` with message
7 (whose link names channel `1234567890`), and a handle-less private group
`555` with message 3. -/
theorem getPostLink_spec_witness :
    getPostLink { username := some "foo", className := "Channel", id := -100123 } 42 =
      "https://t.me/" ++ "foo" ++ "/" ++ toString 42
    ∧ getPostLink { username := none, className := "Channel", id := -1001234567890 } 7 =
      "https://t.me/c/" ++ stripDash100 (toString (-1001234567890 : Int)) ++ "/" ++ toString 7
    ∧ getPostLink { username := none, className := "Channel", id := -1001234567890 } 7 =
      "https://t.me/c/1234567890/7"
    ∧ (includesStr (getPostLink { username := none, className := "Chat", id := 555 } 3)
          (toString (555 : Int)) = true
       ∧ includesStr (getPostLink { username := none, className := "Chat", id := 555 } 3)
          (toString 3) = true) := by
  refine ⟨?_, ?_, ?_, ?_⟩
  · exact (getPostLink_spec { username := some "foo", className := "Channel", id := -100123 }
      42).1 "foo" rfl (by decide)
  · exact (getPostLink_spec { username := none, className := "Channel", id := -1001234567890 }
      7).2.1 rfl rfl
  · have h := (getPostLink_spec { username := none, className := "Channel", id := -1001234567890 }
      7).2.1 rfl rfl
    rw [h]; decide
  · exact (getPostLink_spec { username := none, className := "Chat", id := 555 } 3).2.2 rfl
      (by decide)

/-! ### Round-loop unfolding equations -/

/-- A round over no destinations leaves everything empty. -/
theorem roundGo_nil (results : Nat → SendResult) (rn N itv i s f : Nat) :
    roundGo results rn N itv [] i s f =
      { succ := 0, fail := 0, flood := 0, stopped := false, attempted := [], trace := [] } := rfl

/-- Unfolding the round loop at a successful attempt. -/
theorem roundGo_cons_sent (results : Nat → SendResult) (rn N itv : Nat) (chat : String)
    (rest : List String) (i s f : Nat) (h : results i = SendResult.sent) :
    roundGo results rn N itv (chat :: rest) i s f =
      { roundGo results rn N itv rest (i + 1) (s + 1) f with
        succ := (roundGo results rn N itv rest (i + 1) (s + 1) f).succ + 1
        attempted := i :: (roundGo results rn N itv rest (i + 1) (s + 1) f).attempted
        trace := (if i < N - 1 then [TraceItem.wait itv] else []) ++
          (roundGo results rn N itv rest (i + 1) (s + 1) f).trace } := by
  simp only [roundGo, h]

/-- Unfolding the round loop at a rate-limited attempt: the round breaks with
the pause report as its only new trace item. -/
theorem roundGo_cons_flood (results : Nat → SendResult) (rn N itv : Nat) (chat : String)
    (rest : List String) (i s f : Nat) (h : results i = SendResult.floodWait) :
    roundGo results rn N itv (chat :: rest) i s f =
      { succ := 0, fail := 0, flood := 1, stopped := true, attempted := [i]
        trace := [TraceItem.report (AuditEvent.roundPaused rn (i + 1) N s f)] } := by
  simp only [roundGo, h]

/-- Unfolding the round loop at a failed (skipped) attempt. -/
theorem roundGo_cons_failed (results : Nat → SendResult) (rn N itv : Nat) (chat : String)
    (rest : List String) (i s f : Nat) (h : results i = SendResult.failed) :
    roundGo results rn N itv (chat :: rest) i s f =
      { roundGo results rn N itv rest (i + 1) s (f + 1) with
        fail := (roundGo results rn N itv rest (i + 1) s (f + 1)).fail + 1
        attempted := i :: (roundGo results rn N itv rest (i + 1) s (f + 1)).attempted
        trace := (if i < N - 1 then [TraceItem.wait itv] else []) ++
          (roundGo results rn N itv rest (i + 1) s (f + 1)).trace } := by
  simp only [roundGo, h]

/-- Shifting an initial segment of indices by one. -/
theorem range_map_add_succ (i n : Nat) :
    (List.range (n + 1)).map (fun j => i + j) =
      i :: (List.range n).map (fun j => i + 1 + j) := by
  rw [List.range_succ_eq_map, List.map_cons, List.map_map]
  congr 1
  apply List.map_congr_left
  intro a _
  simp only [Function.comp_apply]
  omega

/-- Invariant: the flood counter of a round is non-zero only when the round
was marked stopped (the only place the counter is incremented also sets the
stop flag). -/
theorem roundGo_flood_stopped (results : Nat → SendResult) (rn N itv : Nat) :
    ∀ (chats : List String) (i s f : Nat),
      (roundGo results rn N itv chats i s f).flood ≠ 0 →
      (roundGo results rn N itv chats i s f).stopped = true := by
  intro chats
  induction chats with
  | nil =>
    intro i s f h
    rw [roundGo_nil] at h
    simp at h
  | cons chat rest ih =>
    intro i s f h
    cases hr : results i with
    | sent =>
      rw [roundGo_cons_sent results rn N itv chat rest i s f hr] at h ⊢
      exact ih (i + 1) (s + 1) f (by simpa using h)
    | floodWait =>
      rw [roundGo_cons_flood results rn N itv chat rest i s f hr]
    | failed =>
      rw [roundGo_cons_failed results rn N itv chat rest i s f hr] at h ⊢
      exact ih (i + 1) s (f + 1) (by simpa using h)

/-- A round in which no attempt is rate-limited: not stopped, no flood
count, every destination index attempted in order, and no audit report in
the loop's own trace (only inter-message suspensions). -/
theorem roundGo_no_flood (results : Nat → SendResult) (rn N itv : Nat) :
    ∀ (chats : List String) (i s f : Nat),
      (∀ j, j < chats.length → results (i + j) ≠ SendResult.floodWait) →
      (roundGo results rn N itv chats i s f).stopped = false
      ∧ (roundGo results rn N itv chats i s f).flood = 0
      ∧ (roundGo results rn N itv chats i s f).attempted =
          (List.range chats.length).map (fun j => i + j)
      ∧ (∀ x ∈ (roundGo results rn N itv chats i s f).trace, isReportItem x = false) := by
  intro chats
  induction chats with
  | nil =>
    intro i s f _
    rw [roundGo_nil]
    exact ⟨rfl, rfl, by simp, by intro x hx; cases hx⟩
  | cons chat rest ih =>
    intro i s f h
    have h0 : results i ≠ SendResult.floodWait := by
      have hh := h 0 (by simp)
      simpa using hh
    have h' : ∀ j, j < rest.length → results (i + 1 + j) ≠ SendResult.floodWait := by
      intro j hj
      have hh := h (j + 1) (by simp; omega)
      have e : i + (j + 1) = i + 1 + j := by omega
      rwa [e] at hh
    cases hr : results i with
    | sent =>
      obtain ⟨ih1, ih2, ih3, ih4⟩ := ih (i + 1) (s + 1) f h'
      rw [roundGo_cons_sent results rn N itv chat rest i s f hr]
      refine ⟨by simpa using ih1, by simpa using ih2, ?_, ?_⟩
      · show i :: (roundGo results rn N itv rest (i + 1) (s + 1) f).attempted = _
        rw [ih3, List.length_cons, range_map_add_succ]
      · intro x hx
        simp only at hx
        rcases List.mem_append.mp hx with hx1 | hx2
        · by_cases h2 : i < N - 1
          · rw [if_pos h2] at hx1
            simp at hx1
            subst hx1
            rfl
          · rw [if_neg h2] at hx1
            cases hx1
        · exact ih4 x hx2
    | floodWait => exact absurd hr h0
    | failed =>
      obtain ⟨ih1, ih2, ih3, ih4⟩ := ih (i + 1) s (f + 1) h'
      rw [roundGo_cons_failed results rn N itv chat rest i s f hr]
      refine ⟨by simpa using ih1, by simpa using ih2, ?_, ?_⟩
      · show i :: (roundGo results rn N itv rest (i + 1) s (f + 1)).attempted = _
        rw [ih3, List.length_cons, range_map_add_succ]
      · intro x hx
        simp only at hx
        rcases List.mem_append.mp hx with hx1 | hx2
        · by_cases h2 : i < N - 1
          · rw [if_pos h2] at hx1
            simp at hx1
            subst hx1
            rfl
          · rw [if_neg h2] at hx1
            cases hx1
        · exact ih4 x hx2

/-- A round whose first rate-limited attempt is at offset `k`: the round is
stopped with flood count 1, exactly the indices up to and including `k` are
attempted, and the trace ends with the pause report carrying progress
`k + 1` out of `N` and the success/failure counters accumulated so far,
preceded only by suspensions. -/
theorem roundGo_first_flood (results : Nat → SendResult) (rn N itv : Nat) :
    ∀ (chats : List String) (k i s f : Nat),
      k < chats.length → results (i + k) = SendResult.floodWait →
      (∀ j, j < k → results (i + j) ≠ SendResult.floodWait) →
      (roundGo results rn N itv chats i s f).stopped = true
      ∧ (roundGo results rn N itv chats i s f).flood = 1
      ∧ (roundGo results rn N itv chats i s f).attempted =
          (List.range (k + 1)).map (fun j => i + j)
      ∧ ∃ ws, (roundGo results rn N itv chats i s f).trace =
            ws ++ [TraceItem.report (AuditEvent.roundPaused rn (i + k + 1) N
              (s + (roundGo results rn N itv chats i s f).succ)
              (f + (roundGo results rn N itv chats i s f).fail))]
          ∧ ∀ x ∈ ws, isReportItem x = false := by
  intro chats
  induction chats with
  | nil =>
    intro k i s f hk
    simp at hk
  | cons chat rest ih =>
    intro k i s f hk hfk hbf
    cases k with
    | zero =>
      have h0 : results i = SendResult.floodWait := by simpa using hfk
      rw [roundGo_cons_flood results rn N itv chat rest i s f h0]
      refine ⟨rfl, rfl, by rw [show List.range 1 = [0] from rfl]; simp, [], by simp,
        by intro x hx; cases hx⟩
    | succ k' =>
      have h0 : results i ≠ SendResult.floodWait := by
        have hh := hbf 0 (Nat.succ_pos k')
        simpa using hh
      have hk' : k' < rest.length := by
        simp only [List.length_cons] at hk
        omega
      have hfk' : results (i + 1 + k') = SendResult.floodWait := by
        have e : i + (k' + 1) = i + 1 + k' := by omega
        rwa [e] at hfk
      have hbf' : ∀ j, j < k' → results (i + 1 + j) ≠ SendResult.floodWait := by
        intro j hj
        have hh := hbf (j + 1) (by omega)
        have e : i + (j + 1) = i + 1 + j := by omega
        rwa [e] at hh
      cases hr : results i with
      | sent =>
        obtain ⟨ih1, ih2, ih3, ws, ihtr, ihws⟩ := ih k' (i + 1) (s + 1) f hk' hfk' hbf'
        rw [roundGo_cons_sent results rn N itv chat rest i s f hr]
        refine ⟨by simpa using ih1, by simpa using ih2, ?_,
          ⟨(if i < N - 1 then [TraceItem.wait itv] else []) ++ ws, ?_, ?_⟩⟩
        · show i :: (roundGo results rn N itv rest (i + 1) (s + 1) f).attempted = _
          conv_rhs => rw [range_map_add_succ]
          rw [ih3]
        · show (if i < N - 1 then [TraceItem.wait itv] else []) ++
            (roundGo results rn N itv rest (i + 1) (s + 1) f).trace = _
          have e1 : i + 1 + k' + 1 = i + (k' + 1) + 1 := by omega
          have e2 : s + 1 + (roundGo results rn N itv rest (i + 1) (s + 1) f).succ =
              s + ((roundGo results rn N itv rest (i + 1) (s + 1) f).succ + 1) := by omega
          rw [ihtr, e1, e2, List.append_assoc]
        · intro x hx
          rcases List.mem_append.mp hx with hx1 | hx2
          · by_cases h2 : i < N - 1
            · rw [if_pos h2] at hx1
              simp at hx1
              subst hx1
              rfl
            · rw [if_neg h2] at hx1
              cases hx1
          · exact ihws x hx2
      | floodWait => exact absurd hr h0
      | failed =>
        obtain ⟨ih1, ih2, ih3, ws, ihtr, ihws⟩ := ih k' (i + 1) s (f + 1) hk' hfk' hbf'
        rw [roundGo_cons_failed results rn N itv chat rest i s f hr]
        refine ⟨by simpa using ih1, by simpa using ih2, ?_,
          ⟨(if i < N - 1 then [TraceItem.wait itv] else []) ++ ws, ?_, ?_⟩⟩
        · show i :: (roundGo results rn N itv rest (i + 1) s (f + 1)).attempted = _
          conv_rhs => rw [range_map_add_succ]
          rw [ih3]
        · show (if i < N - 1 then [TraceItem.wait itv] else []) ++
            (roundGo results rn N itv rest (i + 1) s (f + 1)).trace = _
          have e1 : i + 1 + k' + 1 = i + (k' + 1) + 1 := by omega
          have e2 : f + 1 + (roundGo results rn N itv rest (i + 1) s (f + 1)).fail =
              f + ((roundGo results rn N itv rest (i + 1) s (f + 1)).fail + 1) := by omega
          rw [ihtr, e1, e2, List.append_assoc]
        · intro x hx
          rcases List.mem_append.mp hx with hx1 | hx2
          · by_cases h2 : i < N - 1
            · rw [if_pos h2] at hx1
              simp at hx1
              subst hx1
              rfl
            · rw [if_neg h2] at hx1
              cases hx1
          · exact ihws x hx2

/-- A stopped round's trace ends with a pause report. -/
theorem roundGo_stopped_pause (results : Nat → SendResult) (rn N itv : Nat) :
    ∀ (chats : List String) (i s f : Nat),
      (roundGo results rn N itv chats i s f).stopped = true →
      ∃ a b c d, (roundGo results rn N itv chats i s f).trace.getLast? =
        some (TraceItem.report (AuditEvent.roundPaused rn a b c d)) := by
  intro chats
  induction chats with
  | nil =>
    intro i s f h
    rw [roundGo_nil] at h
    cases h
  | cons chat rest ih =>
    intro i s f h
    cases hr : results i with
    | sent =>
      rw [roundGo_cons_sent results rn N itv chat rest i s f hr] at h ⊢
      obtain ⟨a, b, c, d, hl⟩ := ih (i + 1) (s + 1) f (by simpa using h)
      refine ⟨a, b, c, d, ?_⟩
      show ((if i < N - 1 then [TraceItem.wait itv] else []) ++
        (roundGo results rn N itv rest (i + 1) (s + 1) f).trace).getLast? = _
      rw [List.getLast?_append, hl]
      simp
    | floodWait =>
      rw [roundGo_cons_flood results rn N itv chat rest i s f hr]
      exact ⟨i + 1, N, s, f, rfl⟩
    | failed =>
      rw [roundGo_cons_failed results rn N itv chat rest i s f hr] at h ⊢
      obtain ⟨a, b, c, d, hl⟩ := ih (i + 1) s (f + 1) (by simpa using h)
      refine ⟨a, b, c, d, ?_⟩
      show ((if i < N - 1 then [TraceItem.wait itv] else []) ++
        (roundGo results rn N itv rest (i + 1) s (f + 1)).trace).getLast? = _
      rw [List.getLast?_append, hl]
      simp

/-- The first destination attempted in any round over a non-empty
destination list is the one at the loop's starting index. -/
theorem roundGo_head_attempted (results : Nat → SendResult) (rn N itv : Nat) (chat : String)
    (rest : List String) (i s f : Nat) :
    (roundGo results rn N itv (chat :: rest) i s f).attempted.head? = some i := by
  cases hr : results i with
  | sent => rw [roundGo_cons_sent results rn N itv chat rest i s f hr]; rfl
  | floodWait => rw [roundGo_cons_flood results rn N itv chat rest i s f hr]; rfl
  | failed => rw [roundGo_cons_failed results rn N itv chat rest i s f hr]; rfl

/-! ### Projections of one dispatch-loop iteration -/

/-- The round counters of one loop iteration are those of the
per-destination loop started at index 0 with reset counters. -/
theorem sendBulkRound_out (results : Nat → SendResult) (chatIds : List String)
    (interval : Nat) (st : LoopState) :
    (sendBulkRound results chatIds interval st).out =
      roundGo results st.roundNumber chatIds.length interval chatIds 0 0 0 := rfl

/-- The state carried out of one loop iteration. -/
theorem sendBulkRound_state (results : Nat → SendResult) (chatIds : List String)
    (interval : Nat) (st : LoopState) :
    (sendBulkRound results chatIds interval st).state =
      { totalSuccessCount := st.totalSuccessCount +
          (roundGo results st.roundNumber chatIds.length interval chatIds 0 0 0).succ
        totalFailCount := st.totalFailCount +
          (roundGo results st.roundNumber chatIds.length interval chatIds 0 0 0).fail
        totalFloodWaitCount := st.totalFloodWaitCount +
          (roundGo results st.roundNumber chatIds.length interval chatIds 0 0 0).flood
        roundNumber := st.roundNumber + 1 } := rfl

/-- The guard of the extra cooldown, as one loop iteration evaluates it. -/
theorem sendBulkRound_cooldown (results : Nat → SendResult) (chatIds : List String)
    (interval : Nat) (st : LoopState) :
    (sendBulkRound results chatIds interval st).cooldownApplied =
      ((roundGo results st.roundNumber chatIds.length interval chatIds 0 0 0).flood != 0
        && !(roundGo results st.roundNumber chatIds.length interval chatIds 0 0 0).stopped) := rfl

/-- The trace of one loop iteration: the round-started report, the
per-destination loop's trace, then — only for an unstopped round — the
completion report and inter-round suspension, then — only under the
cooldown guard — the 300-second suspension. -/
theorem sendBulkRound_trace (results : Nat → SendResult) (chatIds : List String)
    (interval : Nat) (st : LoopState) :
    (sendBulkRound results chatIds interval st).trace =
      TraceItem.report (AuditEvent.roundStarted st.roundNumber chatIds.length
        st.totalSuccessCount st.totalFailCount st.totalFloodWaitCount) ::
      ((roundGo results st.roundNumber chatIds.length interval chatIds 0 0 0).trace ++
        (if !(roundGo results st.roundNumber chatIds.length interval chatIds 0 0 0).stopped then
          [TraceItem.report (AuditEvent.roundCompleted st.roundNumber
            (roundGo results st.roundNumber chatIds.length interval chatIds 0 0 0).succ
            (roundGo results st.roundNumber chatIds.length interval chatIds 0 0 0).fail
            (st.totalSuccessCount +
              (roundGo results st.roundNumber chatIds.length interval chatIds 0 0 0).succ)
            (st.totalFailCount +
              (roundGo results st.roundNumber chatIds.length interval chatIds 0 0 0).fail)
            (st.totalFloodWaitCount +
              (roundGo results st.roundNumber chatIds.length interval chatIds 0 0 0).flood)),
           TraceItem.wait interval]
         else []) ++
        (if (roundGo results st.roundNumber chatIds.length interval chatIds 0 0 0).flood != 0
            && !(roundGo results st.roundNumber chatIds.length interval chatIds 0 0 0).stopped then
          [TraceItem.wait 300]
         else [])) := rfl

/-- A non-report trace item is not a pause report. -/
theorem isPause_of_not_report (x : TraceItem) (h : isReportItem x = false) :
    isPauseItem x = false := by
  cases x with
  | report e => simp [isReportItem] at h
  | wait s => rfl

/-- A non-report trace item is not a completion report. -/
theorem isCompleted_of_not_report (x : TraceItem) (h : isReportItem x = false) :
    isCompletedItem x = false := by
  cases x with
  | report e => simp [isReportItem] at h
  | wait s => rfl

/-- C1: over a non-empty destination list of length `N`, one round issues
exactly `N` delivery attempts (the indices `0, …, N-1` in order) when no
attempt is rate-limited, and exactly `k + 1` attempts (the indices
`0, …, k`) when the first rate-limited attempt is at index `k`, leaving the
remaining `N - (k + 1)` destinations unattempted; and every round, whatever
happened before, starts again from index 0. -/
theorem round_attempts_spec (chatIds : List String) (interval : Nat)
    (results : Nat → SendResult) (st : LoopState) (hne : chatIds ≠ []) :
    ((∀ j, j < chatIds.length → results j ≠ SendResult.floodWait) →
      (sendBulkRound results chatIds interval st).out.attempted = List.range chatIds.length)
    ∧ (∀ k, k < chatIds.length → results k = SendResult.floodWait →
        (∀ j, j < k → results j ≠ SendResult.floodWait) →
        (sendBulkRound results chatIds interval st).out.attempted = List.range (k + 1))
    ∧ (∀ (results2 : Nat → SendResult) (st2 : LoopState),
        (sendBulkRound results2 chatIds interval st2).out.attempted.head? = some 0) := by
  refine ⟨?_, ?_, ?_⟩
  · intro h
    rw [sendBulkRound_out]
    obtain ⟨_, _, h3, _⟩ := roundGo_no_flood results st.roundNumber chatIds.length interval
      chatIds 0 0 0 (by intro j hj; rw [Nat.zero_add]; exact h j hj)
    rw [h3]
    simp
  · intro k hk hfk hbf
    rw [sendBulkRound_out]
    obtain ⟨_, _, h3, _⟩ := roundGo_first_flood results st.roundNumber chatIds.length interval
      chatIds k 0 0 0 hk (by rw [Nat.zero_add]; exact hfk)
      (by intro j hj; rw [Nat.zero_add]; exact hbf j hj)
    rw [h3]
    simp
  · intro results2 st2
    rw [sendBulkRound_out]
    cases chatIds with
    | nil => exact absurd rfl hne
    | cons chat rest => exact roundGo_head_attempted results2 st2.roundNumber _ interval chat rest 0 0 0

/-- Witness for C1: three destinations — all sent gives three attempts; a
rate limit at index 1 gives two attempts; and a fresh round always attempts
index 0 first. -/
theorem round_attempts_spec_witness :
    (sendBulkRound (fun _ => SendResult.sent) ["a", "b", "c"] 90
      { totalSuccessCount := 0, totalFailCount := 0, totalFloodWaitCount := 0,
        roundNumber := 1 }).out.attempted = List.range 3
    ∧ (sendBulkRound (fun i => if i == 1 then SendResult.floodWait else SendResult.sent)
        ["a", "b", "c"] 90
        { totalSuccessCount := 0, totalFailCount := 0, totalFloodWaitCount := 0,
          roundNumber := 1 }).out.attempted = List.range (1 + 1)
    ∧ (sendBulkRound (fun _ => SendResult.failed) ["a", "b", "c"] 90
        { totalSuccessCount := 0, totalFailCount := 0, totalFloodWaitCount := 0,
          roundNumber := 1 }).out.attempted.head? = some 0 :=
  ⟨(round_attempts_spec ["a", "b", "c"] 90 (fun _ => SendResult.sent)
      { totalSuccessCount := 0, totalFailCount := 0, totalFloodWaitCount := 0,
        roundNumber := 1 } (by decide)).1 (by decide),
   (round_attempts_spec ["a", "b", "c"] 90
      (fun i => if i == 1 then SendResult.floodWait else SendResult.sent)
      { totalSuccessCount := 0, totalFailCount := 0, totalFloodWaitCount := 0,
        roundNumber := 1 } (by decide)).2.1 1 (by decide) (by decide) (by decide),
   (round_attempts_spec ["a", "b", "c"] 90 (fun _ => SendResult.sent)
      { totalSuccessCount := 0, totalFailCount := 0, totalFloodWaitCount := 0,
        roundNumber := 1 } (by decide)).2.2 (fun _ => SendResult.failed)
      { totalSuccessCount := 0, totalFailCount := 0, totalFloodWaitCount := 0,
        roundNumber := 1 }⟩

/-- C3: when the first rate-limited attempt of a round is at index `k`, the
round emits exactly one round-paused report, whose progress fields are
`k + 1` processed out of `N`, emits no round-completed report, performs
exactly `k + 1` attempts, and its trace ends at the pause report — no
suspension follows before control returns to the dispatch loop. -/
theorem round_pause_report_spec (chatIds : List String) (interval : Nat)
    (results : Nat → SendResult) (st : LoopState) (k : Nat)
    (hk : k < chatIds.length) (hfk : results k = SendResult.floodWait)
    (hbf : ∀ j, j < k → results j ≠ SendResult.floodWait) :
    countPause (sendBulkRound results chatIds interval st).trace = 1
    ∧ countCompleted (sendBulkRound results chatIds interval st).trace = 0
    ∧ (sendBulkRound results chatIds interval st).out.attempted.length = k + 1
    ∧ (∃ s f, (sendBulkRound results chatIds interval st).trace.getLast? =
        some (TraceItem.report (AuditEvent.roundPaused st.roundNumber (k + 1)
          chatIds.length s f))) := by
  obtain ⟨h1, h2, h3, ws, htr, hws⟩ := roundGo_first_flood results st.roundNumber
    chatIds.length interval chatIds k 0 0 0 hk (by rw [Nat.zero_add]; exact hfk)
    (by intro j hj; rw [Nat.zero_add]; exact hbf j hj)
  have htrace : (sendBulkRound results chatIds interval st).trace =
      TraceItem.report (AuditEvent.roundStarted st.roundNumber chatIds.length
        st.totalSuccessCount st.totalFailCount st.totalFloodWaitCount) ::
      (roundGo results st.roundNumber chatIds.length interval chatIds 0 0 0).trace := by
    rw [sendBulkRound_trace, h1]
    simp
  have hwsP : ws.filter isPauseItem = [] := by
    rw [List.filter_eq_nil_iff]
    intro a ha
    simp [isPause_of_not_report a (hws a ha)]
  have hwsC : ws.filter isCompletedItem = [] := by
    rw [List.filter_eq_nil_iff]
    intro a ha
    simp [isCompleted_of_not_report a (hws a ha)]
  refine ⟨?_, ?_, ?_, ?_⟩
  · rw [htrace, htr]
    simp [countPause, List.filter_append, hwsP, isPauseItem]
  · rw [htrace, htr]
    simp [countCompleted, List.filter_append, hwsC, isCompletedItem]
  · rw [sendBulkRound_out, h3]
    simp
  · refine ⟨(roundGo results st.roundNumber chatIds.length interval chatIds 0 0 0).succ,
      (roundGo results st.roundNumber chatIds.length interval chatIds 0 0 0).fail, ?_⟩
    rw [htrace, htr, ← List.singleton_append, ← List.append_assoc, List.getLast?_append]
    simp

/-- Witness for C3 at the specification's scenario: three destinations with
the second rate-limited — one pause report with progress 2 of 3, no
completion report, two attempts, the pause report last. -/
theorem round_pause_report_spec_witness :
    countPause (sendBulkRound (fun i => if i == 1 then SendResult.floodWait else SendResult.sent)
      ["a", "b", "c"] 90
      { totalSuccessCount := 0, totalFailCount := 0, totalFloodWaitCount := 0,
        roundNumber := 1 }).trace = 1
    ∧ countCompleted (sendBulkRound
        (fun i => if i == 1 then SendResult.floodWait else SendResult.sent) ["a", "b", "c"] 90
        { totalSuccessCount := 0, totalFailCount := 0, totalFloodWaitCount := 0,
          roundNumber := 1 }).trace = 0
    ∧ (sendBulkRound (fun i => if i == 1 then SendResult.floodWait else SendResult.sent)
        ["a", "b", "c"] 90
        { totalSuccessCount := 0, totalFailCount := 0, totalFloodWaitCount := 0,
          roundNumber := 1 }).out.attempted.length = 1 + 1
    ∧ (∃ s f, (sendBulkRound (fun i => if i == 1 then SendResult.floodWait else SendResult.sent)
        ["a", "b", "c"] 90
        { totalSuccessCount := 0, totalFailCount := 0, totalFloodWaitCount := 0,
          roundNumber := 1 }).trace.getLast? =
        some (TraceItem.report (AuditEvent.roundPaused 1 (1 + 1) 3 s f))) :=
  round_pause_report_spec ["a", "b", "c"] 90
    (fun i => if i == 1 then SendResult.floodWait else SendResult.sent)
    { totalSuccessCount := 0, totalFailCount := 0, totalFloodWaitCount := 0, roundNumber := 1 }
    1 (by decide) (by decide) (by decide)

/-- C4: one loop iteration applies the extra 300-second cooldown exactly
when the round recorded at least one rate-limit event and was nonetheless
not stopped early. -/
theorem extra_cooldown_iff (chatIds : List String) (interval : Nat)
    (results : Nat → SendResult) (st : LoopState) :
    (sendBulkRound results chatIds interval st).cooldownApplied = true ↔
      ((sendBulkRound results chatIds interval st).out.flood ≠ 0
        ∧ (sendBulkRound results chatIds interval st).out.stopped = false) := by
  rw [sendBulkRound_cooldown, sendBulkRound_out]
  simp [Bool.and_eq_true, bne_iff_ne, Bool.not_eq_true']

/-- C5: each loop iteration increments the round number by exactly one,
whether or not the round stopped early, and over any number of rounds the
cumulative success, failure and rate-limit counters never decrease. -/
theorem roundNumber_totals_monotone (chatIds : List String) (interval : Nat) :
    (∀ (results : Nat → SendResult) (st : LoopState),
      (sendBulkRound results chatIds interval st).state.roundNumber = st.roundNumber + 1
      ∧ st.totalSuccessCount ≤ (sendBulkRound results chatIds interval st).state.totalSuccessCount
      ∧ st.totalFailCount ≤ (sendBulkRound results chatIds interval st).state.totalFailCount
      ∧ st.totalFloodWaitCount ≤
          (sendBulkRound results chatIds interval st).state.totalFloodWaitCount)
    ∧ (∀ (oracles : List (Nat → SendResult)) (st : LoopState),
      (runRounds chatIds interval oracles st).roundNumber = st.roundNumber + oracles.length
      ∧ st.totalSuccessCount ≤ (runRounds chatIds interval oracles st).totalSuccessCount
      ∧ st.totalFailCount ≤ (runRounds chatIds interval oracles st).totalFailCount
      ∧ st.totalFloodWaitCount ≤ (runRounds chatIds interval oracles st).totalFloodWaitCount) := by
  have hstep : ∀ (results : Nat → SendResult) (st : LoopState),
      (sendBulkRound results chatIds interval st).state.roundNumber = st.roundNumber + 1
      ∧ st.totalSuccessCount ≤ (sendBulkRound results chatIds interval st).state.totalSuccessCount
      ∧ st.totalFailCount ≤ (sendBulkRound results chatIds interval st).state.totalFailCount
      ∧ st.totalFloodWaitCount ≤
          (sendBulkRound results chatIds interval st).state.totalFloodWaitCount := by
    intro results st
    exact ⟨rfl, Nat.le_add_right _ _, Nat.le_add_right _ _, Nat.le_add_right _ _⟩
  refine ⟨hstep, ?_⟩
  intro oracles
  induction oracles with
  | nil =>
    intro st
    exact ⟨by simp [runRounds], Nat.le_refl _, Nat.le_refl _, Nat.le_refl _⟩
  | cons r rest ih =>
    intro st
    rw [show runRounds chatIds interval (r :: rest) st =
      runRounds chatIds interval rest (sendBulkRound r chatIds interval st).state from rfl]
    obtain ⟨e1, m1, m2, m3⟩ := ih (sendBulkRound r chatIds interval st).state
    obtain ⟨f1, n1, n2, n3⟩ := hstep r st
    refine ⟨?_, le_trans n1 m1, le_trans n2 m2, le_trans n3 m3⟩
    rw [e1, f1, List.length_cons]
    omega

/-- C10: in every reachable round outcome a non-zero rate-limit counter
forces the stopped flag, so the extra cooldown guard never fires; a stopped
round's trace ends at its pause report, and every round's trace begins with
its round-started report — hence between a pause and the next round's start
no suspension of any kind (neither the extracted wait, nor the inter-round
interval, nor the cooldown) occurs. -/
theorem flood_stopped_no_cooldown (chatIds : List String) (interval : Nat)
    (results : Nat → SendResult) (st : LoopState) :
    ((sendBulkRound results chatIds interval st).out.flood ≠ 0 →
      (sendBulkRound results chatIds interval st).out.stopped = true)
    ∧ (sendBulkRound results chatIds interval st).cooldownApplied = false
    ∧ ((sendBulkRound results chatIds interval st).out.stopped = true →
        ∃ a b c d, (sendBulkRound results chatIds interval st).trace.getLast? =
          some (TraceItem.report (AuditEvent.roundPaused st.roundNumber a b c d)))
    ∧ (sendBulkRound results chatIds interval st).trace.head? =
        some (TraceItem.report (AuditEvent.roundStarted st.roundNumber chatIds.length
          st.totalSuccessCount st.totalFailCount st.totalFloodWaitCount)) := by
  have hfs := roundGo_flood_stopped results st.roundNumber chatIds.length interval chatIds 0 0 0
  refine ⟨?_, ?_, ?_, ?_⟩
  · intro h
    rw [sendBulkRound_out] at h ⊢
    exact hfs h
  · rw [sendBulkRound_cooldown]
    by_cases hf : (roundGo results st.roundNumber chatIds.length interval chatIds 0 0 0).flood = 0
    · simp [hf]
    · rw [hfs hf]
      simp
  · intro h
    rw [sendBulkRound_out] at h
    obtain ⟨a, b, c, d, hl⟩ := roundGo_stopped_pause results st.roundNumber chatIds.length
      interval chatIds 0 0 0 h
    refine ⟨a, b, c, d, ?_⟩
    have htrace : (sendBulkRound results chatIds interval st).trace =
        TraceItem.report (AuditEvent.roundStarted st.roundNumber chatIds.length
          st.totalSuccessCount st.totalFailCount st.totalFloodWaitCount) ::
        (roundGo results st.roundNumber chatIds.length interval chatIds 0 0 0).trace := by
      rw [sendBulkRound_trace, h]
      simp
    rw [htrace, ← List.singleton_append, List.getLast?_append, hl]
    simp
  · rw [sendBulkRound_trace]
    rfl

/-- Witness for C10 at an immediately rate-limited round: the round is
stopped and its trace ends at the pause report. -/
theorem flood_stopped_no_cooldown_witness :
    (sendBulkRound (fun _ => SendResult.floodWait) ["a", "b"] 90
      { totalSuccessCount := 0, totalFailCount := 0, totalFloodWaitCount := 0,
        roundNumber := 1 }).out.stopped = true
    ∧ ∃ a b c d, (sendBulkRound (fun _ => SendResult.floodWait) ["a", "b"] 90
        { totalSuccessCount := 0, totalFailCount := 0, totalFloodWaitCount := 0,
          roundNumber := 1 }).trace.getLast? =
        some (TraceItem.report (AuditEvent.roundPaused 1 a b c d)) :=
  ⟨(flood_stopped_no_cooldown ["a", "b"] 90 (fun _ => SendResult.floodWait)
      { totalSuccessCount := 0, totalFailCount := 0, totalFloodWaitCount := 0,
        roundNumber := 1 }).1 (by decide),
   (flood_stopped_no_cooldown ["a", "b"] 90 (fun _ => SendResult.floodWait)
      { totalSuccessCount := 0, totalFailCount := 0, totalFloodWaitCount := 0,
        roundNumber := 1 }).2.2.1
     ((flood_stopped_no_cooldown ["a", "b"] 90 (fun _ => SendResult.floodWait)
        { totalSuccessCount := 0, totalFailCount := 0, totalFloodWaitCount := 0,
          roundNumber := 1 }).1 (by decide))⟩

end TgSender
